import Mathlib

/-!
Shallow embedding of the `vk-mem-3-erupt` wrapper (`src/lib.rs`) over the
Vulkan Memory Allocator.  The wrapper is a thin FFI binding: every fallible
operation makes exactly one native call and pattern-matches the returned
`VkResult`.  We model each native call's observable outcome (the result code
plus whatever the native layer wrote through the out-pointers) as an explicit
argument, and translate each wrapper function's control flow from the source.
Opaque native pointers are modelled as natural numbers, with `0` for null.
-/

namespace VkMem

/-- Raw `ffi::VkResult` (a C enum, i32). -/
abbrev VkResult := Int

/-- `VK_SUCCESS`. -/
def VK_SUCCESS : VkResult := 0

/-- `VK_INCOMPLETE`. -/
def VK_INCOMPLETE : VkResult := 5

/-- `VK_ERROR_FEATURE_NOT_PRESENT`. -/
def VK_ERROR_FEATURE_NOT_PRESENT : VkResult := -8

/-- `VK_ERROR_VALIDATION_FAILED_EXT`. -/
def VK_ERROR_VALIDATION_FAILED_EXT : VkResult := -1000011001

/-- `erupt::vk::Result`: a newtype wrapping the raw i32 code. -/
structure EruptResult where
  code : VkResult
deriving DecidableEq, Repr

/-- `ffi_to_result` (src/lib.rs lines 375-379): wraps a raw result in the
erupt newtype, `erupt::vk::Result(result)`. -/
def ffi_to_result (result : VkResult) : EruptResult :=
  ⟨result⟩

/-- `erupt::vk::Result::SUCCESS`. -/
def EruptResult.SUCCESS : EruptResult := ⟨VK_SUCCESS⟩

/-- `erupt::vk::Result::INCOMPLETE`. -/
def EruptResult.INCOMPLETE : EruptResult := ⟨VK_INCOMPLETE⟩

/-- Modelled from the spec: the wrapper's error type lives in `src/error.rs`,
which is not under `src/`.  Per the spec's taxonomy ("ExternalApiError: any
other native-layer error code, passed through unchanged"), `Error::vulkan`
wraps the erupt result carrying the native code unchanged. -/
structure Error where
  code : VkResult
deriving DecidableEq, Repr

/-- Modelled from the spec: `Error::vulkan(result)` stores the native error
code unchanged. -/
def Error.vulkan (result : EruptResult) : Error :=
  ⟨result.code⟩

/-- Opaque native pointer value; `0` models a null pointer. -/
abbrev Ptr := Nat

/-- `Allocation` (src/lib.rs lines 68-72): wraps the `ffi::VmaAllocation`
pointer. -/
structure Allocation where
  internal : Ptr
deriving DecidableEq, Repr

/-- `Allocation::null()` / `Default`: a null internal pointer. -/
def Allocation.null : Allocation := ⟨0⟩

/-- `AllocationInfo` (src/lib.rs lines 92-96): carries the opaque
`ffi::VmaAllocationInfo` value written by the native layer; we model that
value as an opaque identifier. -/
structure AllocationInfo where
  internal : Ptr
deriving DecidableEq, Repr

/-- `AllocatorPool` (src/lib.rs lines 37-41): wraps the `ffi::VmaPool`
pointer. -/
structure AllocatorPool where
  internal : Ptr
deriving DecidableEq, Repr

/-- `DefragmentationContext` (src/lib.rs lines 877-880): wraps the
`ffi::VmaDefragmentationContext` pointer. -/
structure DefragmentationContext where
  internal : Ptr
deriving DecidableEq, Repr

/-- `Allocator` (src/lib.rs lines 17-27): the wrapper object, holding the
`ffi::VmaAllocator` pointer. -/
structure Allocator where
  internal : Ptr
deriving DecidableEq, Repr

/-- The observable outcome of one native call: the `VkResult` it returned
together with the values it wrote through the out-pointers. -/
structure NativeResp (α : Type) where
  result : VkResult
  out : α
deriving DecidableEq, Repr

/-- `Allocator::allocate_memory` (src/lib.rs lines 1348-1374): one call to
`vmaAllocateMemory`; on `SUCCESS` returns the written allocation and info,
otherwise `Err(Error::vulkan(result))`. -/
def Allocator.allocate_memory (native : NativeResp (Ptr × Ptr)) :
    Except Error (Allocation × AllocationInfo) :=
  let result := ffi_to_result native.result
  if result = EruptResult.SUCCESS then
    .ok (⟨native.out.1⟩, ⟨native.out.2⟩)
  else
    .error (Error.vulkan result)

/-- `Allocator::allocate_memory_pages` (src/lib.rs lines 1385-1425): one call
to `vmaAllocateMemoryPages` writing two arrays; on `SUCCESS` the wrapper zips
them into pairs, otherwise errors. -/
def Allocator.allocate_memory_pages (native : NativeResp (List Ptr × List Ptr)) :
    Except Error (List (Allocation × AllocationInfo)) :=
  let result := ffi_to_result native.result
  if result = EruptResult.SUCCESS then
    .ok ((native.out.1.zip native.out.2).map fun ai => (⟨ai.1⟩, ⟨ai.2⟩))
  else
    .error (Error.vulkan result)

/-- `Allocator::allocate_memory_for_buffer` (src/lib.rs lines 1430-1452): one
call to `vmaAllocateMemoryForBuffer`. -/
def Allocator.allocate_memory_for_buffer (native : NativeResp (Ptr × Ptr)) :
    Except Error (Allocation × AllocationInfo) :=
  let result := ffi_to_result native.result
  if result = EruptResult.SUCCESS then
    .ok (⟨native.out.1⟩, ⟨native.out.2⟩)
  else
    .error (Error.vulkan result)

/-- `Allocator::allocate_memory_for_image` (src/lib.rs lines 1457-1479): one
call to `vmaAllocateMemoryForImage`. -/
def Allocator.allocate_memory_for_image (native : NativeResp (Ptr × Ptr)) :
    Except Error (Allocation × AllocationInfo) :=
  let result := ffi_to_result native.result
  if result = EruptResult.SUCCESS then
    .ok (⟨native.out.1⟩, ⟨native.out.2⟩)
  else
    .error (Error.vulkan result)

/-- `Allocator::create_pool` (src/lib.rs lines 1293-1303): one call to
`vmaCreatePool`. -/
def Allocator.create_pool (native : NativeResp Ptr) :
    Except Error AllocatorPool :=
  let result := ffi_to_result native.result
  if result = EruptResult.SUCCESS then
    .ok ⟨native.out⟩
  else
    .error (Error.vulkan result)

/-- `Allocator::create_buffer` (src/lib.rs lines 1970-2000): one call to
`vmaCreateBuffer` writing a buffer handle, an allocation and its info. -/
def Allocator.create_buffer (native : NativeResp (Ptr × Ptr × Ptr)) :
    Except Error (Ptr × Allocation × AllocationInfo) :=
  let result := ffi_to_result native.result
  if result = EruptResult.SUCCESS then
    .ok (native.out.1, ⟨native.out.2.1⟩, ⟨native.out.2.2⟩)
  else
    .error (Error.vulkan result)

/-- `Allocator::create_image` (src/lib.rs lines 2039-2067): one call to
`vmaCreateImage`. -/
def Allocator.create_image (native : NativeResp (Ptr × Ptr × Ptr)) :
    Except Error (Ptr × Allocation × AllocationInfo) :=
  let result := ffi_to_result native.result
  if result = EruptResult.SUCCESS then
    .ok (native.out.1, ⟨native.out.2.1⟩, ⟨native.out.2.2⟩)
  else
    .error (Error.vulkan result)

/-- `Allocator::map_memory` (src/lib.rs lines 1591-1600): one call to
`vmaMapMemory`; on `SUCCESS` returns the written pointer (cast to `*mut u8`,
identity on the address). -/
def Allocator.map_memory (native : NativeResp Ptr) :
    Except Error Ptr :=
  let result := ffi_to_result native.result
  if result = EruptResult.SUCCESS then
    .ok native.out
  else
    .error (Error.vulkan result)

/-- `Allocator::find_memory_type_index` (src/lib.rs lines 1203-1222): one
call to `vmaFindMemoryTypeIndex` writing a u32 index. -/
def Allocator.find_memory_type_index (native : NativeResp Nat) :
    Except Error Nat :=
  let result := ffi_to_result native.result
  if result = EruptResult.SUCCESS then
    .ok native.out
  else
    .error (Error.vulkan result)

/-- `Allocator::begin_defragmentation` (src/lib.rs lines 1777-1801): one call
to `vmaBeginDefragmentation` writing a context pointer. -/
def Allocator.begin_defragmentation (native : NativeResp Ptr) :
    Except Error DefragmentationContext :=
  let result := ffi_to_result native.result
  if result = EruptResult.SUCCESS then
    .ok ⟨native.out⟩
  else
    .error (Error.vulkan result)

/-- Modelled from the spec: the numeric values of the
`VmaDefragmentationMoveOperation` enum live in `src/ffi.rs`, which is not
under `src/`; the native copy operation code. -/
def VMA_DEFRAGMENTATION_MOVE_OPERATION_COPY : Nat := 0

/-- Modelled from the spec: the native ignore operation code (src/ffi.rs is
not under `src/`). -/
def VMA_DEFRAGMENTATION_MOVE_OPERATION_IGNORE : Nat := 1

/-- Modelled from the spec: the native destroy operation code (src/ffi.rs is
not under `src/`). -/
def VMA_DEFRAGMENTATION_MOVE_OPERATION_DESTROY : Nat := 2

/-- `DefragmentationMoveOperation` (src/lib.rs lines 843-853). -/
inductive DefragmentationMoveOperation where
  | Copy
  | Ignore
  | Destroy
deriving DecidableEq, Repr

/-- The `as u32` view of a `DefragmentationMoveOperation` (its `repr(u32)`
discriminant). -/
def DefragmentationMoveOperation.toRaw : DefragmentationMoveOperation → Nat
  | .Copy => VMA_DEFRAGMENTATION_MOVE_OPERATION_COPY
  | .Ignore => VMA_DEFRAGMENTATION_MOVE_OPERATION_IGNORE
  | .Destroy => VMA_DEFRAGMENTATION_MOVE_OPERATION_DESTROY

/-- `impl TryFrom<u32> for DefragmentationMoveOperation` (src/lib.rs lines
855-869): succeeds on the three known discriminants, otherwise returns the
value itself as the error. -/
def DefragmentationMoveOperation.tryFrom (value : Nat) :
    Except Nat DefragmentationMoveOperation :=
  if value = DefragmentationMoveOperation.Copy.toRaw then
    .ok .Copy
  else if value = DefragmentationMoveOperation.Ignore.toRaw then
    .ok .Ignore
  else if value = DefragmentationMoveOperation.Destroy.toRaw then
    .ok .Destroy
  else
    .error value

/-- `impl Default for DefragmentationMoveOperation` (src/lib.rs lines
871-875): the source returns `Self::Ignore`. -/
def DefragmentationMoveOperation.default : DefragmentationMoveOperation :=
  .Ignore

/-- `ffi::VmaDefragmentationMove`: the native move record — a u32 operation
plus source and temporary destination allocation pointers. -/
structure VmaDefragmentationMove where
  operation : Nat
  srcAllocation : Ptr
  dstTmpAllocation : Ptr
deriving DecidableEq, Repr

/-- `ffi::VmaDefragmentationPassMoveInfo`: `moveCount` plus the native move
array `pMoves` (modelled as the list of records the pointer gives access
to). -/
structure VmaDefragmentationPassMoveInfo where
  moveCount : Nat
  pMoves : List VmaDefragmentationMove
deriving DecidableEq, Repr

/-- `DefragmentationMove` (src/lib.rs lines 906-919). -/
structure DefragmentationMove where
  operation : DefragmentationMoveOperation
  src_allocation : Allocation
  dst_tmp_allocation : Allocation
deriving DecidableEq, Repr

/-- `DefragmentationPassMoveInfo` (src/lib.rs lines 931-935): the raw native
struct plus the wrapper-side boxed move slice. -/
structure DefragmentationPassMoveInfo where
  internal : VmaDefragmentationPassMoveInfo
  moves : List DefragmentationMove
deriving DecidableEq, Repr

/-- `DefragmentationPassResult` (src/lib.rs lines 921-926). -/
inductive DefragmentationPassResult where
  | Success
  | Incomplete (info : DefragmentationPassMoveInfo)
deriving DecidableEq, Repr

/-- One iteration of the move-reading loop in `begin_defragmentation_pass`
(src/lib.rs lines 1815-1827): converts the native operation with
`try_into().unwrap()` — `none` models the `unwrap` panic — and wraps the two
allocation pointers. -/
def convMove (m : VmaDefragmentationMove) : Option DefragmentationMove :=
  match DefragmentationMoveOperation.tryFrom m.operation with
  | .ok op =>
      some { operation := op
             src_allocation := ⟨m.srcAllocation⟩
             dst_tmp_allocation := ⟨m.dstTmpAllocation⟩ }
  | .error _ => none

/-- The move-reading loop of `begin_defragmentation_pass` over a list of
native records: converts each in order, propagating a panic (`none`) from
any entry. -/
def convMoves : List VmaDefragmentationMove → Option (List DefragmentationMove)
  | [] => some []
  | m :: ms =>
    match convMove m with
    | some mv => (convMoves ms).map (mv :: ·)
    | none => none

/-- The move-reading loop of `begin_defragmentation_pass`: reads `count`
entries from the native array and converts each one; `none` models a panic
on an unknown native operation value. -/
def readPassMoves (pMoves : List VmaDefragmentationMove) (count : Nat) :
    Option (List DefragmentationMove) :=
  convMoves (pMoves.take count)

/-- `Allocator::begin_defragmentation_pass` (src/lib.rs lines 1804-1838):
one call to `vmaBeginDefragmentationPass`; on `INCOMPLETE` reads `moveCount`
moves (panicking — `none` — on an unknown operation value), on `SUCCESS`
returns `Success`, otherwise errors. -/
def Allocator.begin_defragmentation_pass
    (native : NativeResp VmaDefragmentationPassMoveInfo) :
    Option (Except Error DefragmentationPassResult) :=
  let result := ffi_to_result native.result
  if result = EruptResult.INCOMPLETE then
    match readPassMoves native.out.pMoves native.out.moveCount with
    | some moves =>
        some (.ok (.Incomplete { internal := native.out, moves := moves }))
    | none => none
  else if result = EruptResult.SUCCESS then
    some (.ok .Success)
  else
    some (.error (Error.vulkan result))

/-- First loop of `end_defragmentation_pass` (src/lib.rs lines 1853-1859):
writes each wrapper-side move's operation into the corresponding entry of
the native move array. -/
def writeOps :
    List VmaDefragmentationMove → List DefragmentationMove →
    List VmaDefragmentationMove
  | ps, [] => ps
  | [], _ => []
  | p :: ps, m :: ms =>
      { p with operation := m.operation.toRaw } :: writeOps ps ms

/-- Read-back loop of `end_defragmentation_pass` (src/lib.rs lines
1866-1872): refreshes each wrapper-side move's `src_allocation` from the
native array after the native call. -/
def readBackSrc :
    List DefragmentationMove → List VmaDefragmentationMove →
    List DefragmentationMove
  | [], _ => []
  | ms, [] => ms
  | m :: ms, p :: ps =>
      { m with src_allocation := ⟨p.srcAllocation⟩ } :: readBackSrc ms ps

/-- `Allocator::end_defragmentation_pass` (src/lib.rs lines 1848-1874):
writes the caller-set operations into the native array, makes one call to
`vmaEndDefragmentationPass` (modelled as a function from the written array
to the result code and the updated array), errors unless the code is
`SUCCESS` or `INCOMPLETE`, refreshes the source allocations, and returns
`result == SUCCESS`. -/
def Allocator.end_defragmentation_pass
    (moves : DefragmentationPassMoveInfo)
    (native : List VmaDefragmentationMove →
      VkResult × List VmaDefragmentationMove) :
    Except Error (Bool × DefragmentationPassMoveInfo) :=
  let written := writeOps moves.internal.pMoves moves.moves
  let call := native written
  let result := ffi_to_result call.1
  if ¬(result = EruptResult.SUCCESS ∨ result = EruptResult.INCOMPLETE) then
    .error (Error.vulkan result)
  else
    let movesAfter := readBackSrc moves.moves call.2
    .ok (decide (result = EruptResult.SUCCESS),
      { internal := { moves.internal with pMoves := call.2 }
        moves := movesAfter })

/-- `ffi::VmaDefragmentationStats`: the native statistics record
(`bytesMoved`/`bytesFreed` are `VkDeviceSize`, i.e. u64). -/
structure VmaDefragmentationStats where
  bytesMoved : Nat
  bytesFreed : Nat
  allocationsMoved : Nat
  deviceMemoryBlocksFreed : Nat
deriving DecidableEq, Repr

/-- `DefragmentationStats` (src/lib.rs lines 947-961). -/
structure DefragmentationStats where
  bytes_moved : Nat
  bytes_freed : Nat
  allocations_moved : Nat
  device_memory_blocks_freed : Nat
deriving DecidableEq, Repr

/-- The `as usize` cast of a u64 value on the 64-bit target. -/
def u64_to_usize (n : Nat) : Nat := n % 2 ^ 64

/-- `Allocator::end_defragmentation` (src/lib.rs lines 1879-1893): one call
to `vmaEndDefragmentation` writing the native stats, copied field by field
into the wrapper's `DefragmentationStats` (byte counts cast `as usize`). -/
def Allocator.end_defragmentation (native : VmaDefragmentationStats) :
    DefragmentationStats :=
  { bytes_moved := u64_to_usize native.bytesMoved
    bytes_freed := u64_to_usize native.bytesFreed
    allocations_moved := native.allocationsMoved
    device_memory_blocks_freed := native.deviceMemoryBlocksFreed }

/-- `Allocator::check_corruption` (src/lib.rs lines 1662-1669): one call to
`vmaCheckCorruption` with the caller-supplied bitmask passed through
unchanged (`memory_types.bits()`); the native behaviour is modelled as a
function from the bitmask it receives to a result code. -/
def Allocator.check_corruption (memory_types_bits : Nat)
    (native : Nat → VkResult) : Except Error Unit :=
  let result := ffi_to_result (native memory_types_bits)
  if result = EruptResult.SUCCESS then
    .ok ()
  else
    .error (Error.vulkan result)

/-- `Allocator::check_pool_corruption` (src/lib.rs lines 1333-1340): one
call to `vmaCheckPoolCorruption` with the pool handle passed through
unchanged. -/
def Allocator.check_pool_corruption (pool : AllocatorPool)
    (native : Ptr → VkResult) : Except Error Unit :=
  let result := ffi_to_result (native pool.internal)
  if result = EruptResult.SUCCESS then
    .ok ()
  else
    .error (Error.vulkan result)

/-- `Allocator::destroy` (src/lib.rs lines 2093-2100): if the internal
handle is non-null, calls `vmaDestroyAllocator` once and nulls the handle;
otherwise does nothing.  Returns the updated wrapper and whether the native
destroy call was made. -/
def Allocator.destroy (a : Allocator) : Allocator × Bool :=
  if a.internal ≠ 0 then
    (⟨0⟩, true)
  else
    (a, false)

/-- `impl Drop for Allocator` (src/lib.rs lines 2104-2108): `drop` just
calls `self.destroy()`. -/
def Allocator.drop (a : Allocator) : Allocator × Bool :=
  Allocator.destroy a

/-- Modelled from the spec: the numeric value of
`VmaPoolCreateFlagBits_VMA_POOL_CREATE_LINEAR_ALGORITHM_BIT` lives in
`src/ffi.rs`, which is not under `src/`. -/
def VMA_POOL_CREATE_LINEAR_ALGORITHM_BIT : Nat := 4

/-- Modelled from the spec: Vulkan has no single invalid-argument code and
the engine sources are not under `src/`; the spec names only the
InvalidArgument class, so the model uses one fixed non-`SUCCESS` code to
stand for it. -/
def VK_ERROR_INVALID_ARGUMENT_CLASS : VkResult := -1000013000

/-- Modelled from the spec: the engine side of `vmaBeginDefragmentation`
(the suballocation engine is not under `src/`; only its caller,
`Allocator::begin_defragmentation`, is): "A Linear-algorithm Pool rejects
any attempt to open a defragmentation scope referencing it, with
InvalidArgument" — if the target pool was created with the
`LINEAR_ALGORITHM` flag, the native call reports an InvalidArgument-class
code and writes no context; otherwise it behaves as some other outcome
`fallback`. -/
def nativeBeginDefragmentation (poolFlags : Nat)
    (fallback : NativeResp Ptr) : NativeResp Ptr :=
  if poolFlags &&& VMA_POOL_CREATE_LINEAR_ALGORITHM_BIT ≠ 0 then
    { result := VK_ERROR_INVALID_ARGUMENT_CLASS, out := 0 }
  else
    fallback

/-- Modelled from the spec: the per-Block mapping tracker ("Mapping
tracker", engine side of `vmaMapMemory`/`vmaUnmapMemory`; the engine is not
under `src/`): a map reference count plus the cached mapped base pointer
(`0` models null). -/
structure BlockMapState where
  map_ref_count : Nat
  mapped_pointer : Ptr
deriving DecidableEq, Repr

/-- Modelled from the spec: the engine side of `vmaMapMemory` for an
allocation at `offset` inside a block whose native map yields base pointer
`basePtr`: "increments the owning native-memory-object's map_ref_count; the
first increment performs the actual native map and caches the pointer at
the Block; subsequent calls return the cached pointer", the returned
pointer being correctly offset; "Mapping a non-host-visible allocation
fails with FeatureNotPresent-class error".  Returns the new state, whether
the actual native map was performed, and the pointer result. -/
def modelMapMemory (hostVisible : Bool) (basePtr : Ptr) (offset : Nat)
    (s : BlockMapState) : BlockMapState × Bool × Except Error Ptr :=
  if hostVisible then
    if s.map_ref_count = 0 then
      ({ map_ref_count := 1, mapped_pointer := basePtr }, true,
        .ok (basePtr + offset))
    else
      ({ s with map_ref_count := s.map_ref_count + 1 }, false,
        .ok (s.mapped_pointer + offset))
  else
    (s, false, .error (Error.vulkan (ffi_to_result VK_ERROR_FEATURE_NOT_PRESENT)))

/-- Modelled from the spec: the engine side of `vmaUnmapMemory`: "`unmap`
decrements; reaching zero triggers the native unmap".  Returns the new
state and whether the actual native unmap was performed. -/
def modelUnmapMemory (s : BlockMapState) : BlockMapState × Bool :=
  if s.map_ref_count = 1 then
    ({ map_ref_count := 0, mapped_pointer := 0 }, true)
  else
    ({ s with map_ref_count := s.map_ref_count - 1 }, false)

/-! ### Helper lemmas -/

theorem ffi_match_spec {β : Type} (r : VkResult) (v : β) :
    ((if ffi_to_result r = EruptResult.SUCCESS then (Except.ok v : Except Error β)
      else Except.error (Error.vulkan (ffi_to_result r))) = Except.ok v
        ↔ r = VK_SUCCESS) ∧
    (r ≠ VK_SUCCESS →
      (if ffi_to_result r = EruptResult.SUCCESS then (Except.ok v : Except Error β)
       else Except.error (Error.vulkan (ffi_to_result r))) = Except.error ⟨r⟩) := by
  by_cases h : r = VK_SUCCESS
  · subst h
    simp [ffi_to_result, EruptResult.SUCCESS]
  · constructor
    · simp [ffi_to_result, EruptResult.SUCCESS, h]
    · intro _
      simp [ffi_to_result, EruptResult.SUCCESS, Error.vulkan, h]

theorem tryFrom_ok_toRaw {v : Nat} {op : DefragmentationMoveOperation}
    (h : DefragmentationMoveOperation.tryFrom v = .ok op) :
    op.toRaw = v := by
  by_cases h0 : v = DefragmentationMoveOperation.Copy.toRaw
  · rw [DefragmentationMoveOperation.tryFrom, if_pos h0] at h
    injection h with h
    subst h
    exact h0.symm
  · by_cases h1 : v = DefragmentationMoveOperation.Ignore.toRaw
    · rw [DefragmentationMoveOperation.tryFrom, if_neg h0, if_pos h1] at h
      injection h with h
      subst h
      exact h1.symm
    · by_cases h2 : v = DefragmentationMoveOperation.Destroy.toRaw
      · rw [DefragmentationMoveOperation.tryFrom, if_neg h0, if_neg h1, if_pos h2] at h
        injection h with h
        subst h
        exact h2.symm
      · rw [DefragmentationMoveOperation.tryFrom, if_neg h0, if_neg h1, if_neg h2] at h
        simp at h

theorem tryFrom_isOk_iff (v : Nat) :
    (DefragmentationMoveOperation.tryFrom v).isOk = true ↔
      v = VMA_DEFRAGMENTATION_MOVE_OPERATION_COPY ∨
      v = VMA_DEFRAGMENTATION_MOVE_OPERATION_IGNORE ∨
      v = VMA_DEFRAGMENTATION_MOVE_OPERATION_DESTROY := by
  unfold DefragmentationMoveOperation.tryFrom
  by_cases h0 : v = DefragmentationMoveOperation.Copy.toRaw
  · simp [h0, Except.isOk, Except.toBool, DefragmentationMoveOperation.toRaw,
      VMA_DEFRAGMENTATION_MOVE_OPERATION_COPY,
      VMA_DEFRAGMENTATION_MOVE_OPERATION_IGNORE,
      VMA_DEFRAGMENTATION_MOVE_OPERATION_DESTROY]
  · by_cases h1 : v = DefragmentationMoveOperation.Ignore.toRaw
    · simp [h0, h1, Except.isOk, Except.toBool, DefragmentationMoveOperation.toRaw,
        VMA_DEFRAGMENTATION_MOVE_OPERATION_COPY,
        VMA_DEFRAGMENTATION_MOVE_OPERATION_IGNORE,
        VMA_DEFRAGMENTATION_MOVE_OPERATION_DESTROY]
    · by_cases h2 : v = DefragmentationMoveOperation.Destroy.toRaw
      · simp [h0, h1, h2, Except.isOk, Except.toBool, DefragmentationMoveOperation.toRaw,
          VMA_DEFRAGMENTATION_MOVE_OPERATION_COPY,
          VMA_DEFRAGMENTATION_MOVE_OPERATION_IGNORE,
          VMA_DEFRAGMENTATION_MOVE_OPERATION_DESTROY]
      · simp only [DefragmentationMoveOperation.toRaw] at h0 h1 h2
        simp [h0, h1, h2, Except.isOk, Except.toBool,
          DefragmentationMoveOperation.toRaw]

theorem convMove_eq_none_iff (m : VmaDefragmentationMove) :
    convMove m = none ↔
      (DefragmentationMoveOperation.tryFrom m.operation).isOk = false := by
  cases h : DefragmentationMoveOperation.tryFrom m.operation with
  | ok op => simp [convMove, h, Except.isOk, Except.toBool]
  | error v => simp [convMove, h, Except.isOk, Except.toBool]

theorem convMoves_eq_none_iff (l : List VmaDefragmentationMove) :
    convMoves l = none ↔ ∃ m ∈ l, convMove m = none := by
  induction l with
  | nil => simp [convMoves]
  | cons m ms ih =>
      cases h : convMove m with
      | some mv => simp [convMoves, h, ih]
      | none => simp [convMoves, h]

theorem convMoves_of_ok (l : List VmaDefragmentationMove)
    (h : ∀ m ∈ l, (DefragmentationMoveOperation.tryFrom m.operation).isOk = true) :
    ∃ ms, convMoves l = some ms ∧
      (ms.map fun mv => mv.operation.toRaw) = (l.map fun m => m.operation) ∧
      (ms.map fun mv => mv.src_allocation.internal)
        = (l.map fun m => m.srcAllocation) ∧
      (ms.map fun mv => mv.dst_tmp_allocation.internal)
        = (l.map fun m => m.dstTmpAllocation) := by
  induction l with
  | nil => exact ⟨[], rfl, rfl, rfl, rfl⟩
  | cons m ms ih =>
      have hm := h m (List.mem_cons_self m ms)
      obtain ⟨tl, htl, hop, hsrc, hdst⟩ :=
        ih fun x hx => h x (List.mem_cons_of_mem m hx)
      cases hcv : DefragmentationMoveOperation.tryFrom m.operation with
      | error v =>
          rw [hcv] at hm
          simp [Except.isOk, Except.toBool] at hm
      | ok op =>
          refine ⟨DefragmentationMove.mk op ⟨m.srcAllocation⟩
              ⟨m.dstTmpAllocation⟩ :: tl, ?_, ?_, ?_, ?_⟩
          · simp [convMoves, convMove, hcv, htl]
          · simp [hop, tryFrom_ok_toRaw hcv]
          · simp [hsrc]
          · simp [hdst]

/-! ### Claim theorems -/

/-- Claim C1: every fallible `Allocator` operation returns `Ok` with its
result exactly when the native layer reports `SUCCESS`, and otherwise
returns an `Err` carrying the native error code unchanged; `ffi_to_result`
is the identity on the code.  (No internal retry is structural in this
embedding: each operation consumes exactly one native response, mirroring
the single ffi call in the source.) -/
theorem claim_C1_fallible_passthrough :
    (∀ r : VkResult, (ffi_to_result r).code = r) ∧
    (∀ n : NativeResp (Ptr × Ptr),
      (Allocator.allocate_memory n = .ok (⟨n.out.1⟩, ⟨n.out.2⟩)
        ↔ n.result = VK_SUCCESS) ∧
      (n.result ≠ VK_SUCCESS →
        Allocator.allocate_memory n = .error ⟨n.result⟩)) ∧
    (∀ n : NativeResp (List Ptr × List Ptr),
      (Allocator.allocate_memory_pages n
          = .ok ((n.out.1.zip n.out.2).map fun ai => (⟨ai.1⟩, ⟨ai.2⟩))
        ↔ n.result = VK_SUCCESS) ∧
      (n.result ≠ VK_SUCCESS →
        Allocator.allocate_memory_pages n = .error ⟨n.result⟩)) ∧
    (∀ n : NativeResp (Ptr × Ptr),
      (Allocator.allocate_memory_for_buffer n = .ok (⟨n.out.1⟩, ⟨n.out.2⟩)
        ↔ n.result = VK_SUCCESS) ∧
      (n.result ≠ VK_SUCCESS →
        Allocator.allocate_memory_for_buffer n = .error ⟨n.result⟩)) ∧
    (∀ n : NativeResp (Ptr × Ptr),
      (Allocator.allocate_memory_for_image n = .ok (⟨n.out.1⟩, ⟨n.out.2⟩)
        ↔ n.result = VK_SUCCESS) ∧
      (n.result ≠ VK_SUCCESS →
        Allocator.allocate_memory_for_image n = .error ⟨n.result⟩)) ∧
    (∀ n : NativeResp Ptr,
      (Allocator.create_pool n = .ok ⟨n.out⟩ ↔ n.result = VK_SUCCESS) ∧
      (n.result ≠ VK_SUCCESS → Allocator.create_pool n = .error ⟨n.result⟩)) ∧
    (∀ n : NativeResp (Ptr × Ptr × Ptr),
      (Allocator.create_buffer n = .ok (n.out.1, ⟨n.out.2.1⟩, ⟨n.out.2.2⟩)
        ↔ n.result = VK_SUCCESS) ∧
      (n.result ≠ VK_SUCCESS →
        Allocator.create_buffer n = .error ⟨n.result⟩)) ∧
    (∀ n : NativeResp (Ptr × Ptr × Ptr),
      (Allocator.create_image n = .ok (n.out.1, ⟨n.out.2.1⟩, ⟨n.out.2.2⟩)
        ↔ n.result = VK_SUCCESS) ∧
      (n.result ≠ VK_SUCCESS →
        Allocator.create_image n = .error ⟨n.result⟩)) ∧
    (∀ n : NativeResp Ptr,
      (Allocator.map_memory n = .ok n.out ↔ n.result = VK_SUCCESS) ∧
      (n.result ≠ VK_SUCCESS → Allocator.map_memory n = .error ⟨n.result⟩)) ∧
    (∀ n : NativeResp Nat,
      (Allocator.find_memory_type_index n = .ok n.out
        ↔ n.result = VK_SUCCESS) ∧
      (n.result ≠ VK_SUCCESS →
        Allocator.find_memory_type_index n = .error ⟨n.result⟩)) ∧
    (∀ n : NativeResp Ptr,
      (Allocator.begin_defragmentation n = .ok ⟨n.out⟩
        ↔ n.result = VK_SUCCESS) ∧
      (n.result ≠ VK_SUCCESS →
        Allocator.begin_defragmentation n = .error ⟨n.result⟩)) := by
  exact ⟨fun r => rfl,
    fun n => ffi_match_spec n.result _,
    fun n => ffi_match_spec n.result _,
    fun n => ffi_match_spec n.result _,
    fun n => ffi_match_spec n.result _,
    fun n => ffi_match_spec n.result _,
    fun n => ffi_match_spec n.result _,
    fun n => ffi_match_spec n.result _,
    fun n => ffi_match_spec n.result _,
    fun n => ffi_match_spec n.result _,
    fun n => ffi_match_spec n.result _⟩

/-- Witness for claim C1 at concrete inputs: a successful `map_memory` call
and a failed `allocate_memory` call with the code passed through. -/
theorem claim_C1_witness :
    (ffi_to_result (-8)).code = -8 ∧
    Allocator.map_memory { result := 0, out := 42 } = .ok 42 ∧
    Allocator.allocate_memory { result := -8, out := (7, 9) }
      = .error ⟨-8⟩ :=
  ⟨claim_C1_fallible_passthrough.1 (-8),
    (claim_C1_fallible_passthrough.2.2.2.2.2.2.2.2.1
      { result := 0, out := 42 }).1.mpr (by decide),
    (claim_C1_fallible_passthrough.2.1
      { result := -8, out := (7, 9) }).2 (by decide)⟩

/-- Claim C3: `begin_defragmentation_pass` returns `Success` when the native
layer reports `SUCCESS`, returns `Incomplete(moves)` when it reports
`INCOMPLETE` — with exactly `moveCount` entries, each pairing the native
source allocation with its temporary destination allocation, in order — and
returns an error carrying the code for any other native result. -/
theorem claim_C3_begin_pass (native : NativeResp VmaDefragmentationPassMoveInfo)
    (hlen : native.out.moveCount = native.out.pMoves.length)
    (hops : ∀ m ∈ native.out.pMoves,
      (DefragmentationMoveOperation.tryFrom m.operation).isOk = true) :
    (native.result = VK_SUCCESS →
      Allocator.begin_defragmentation_pass native = some (.ok .Success)) ∧
    (native.result = VK_INCOMPLETE →
      ∃ info, Allocator.begin_defragmentation_pass native
          = some (.ok (.Incomplete info)) ∧
        info.internal = native.out ∧
        info.moves.length = native.out.moveCount ∧
        (info.moves.map fun mv => mv.src_allocation.internal)
          = (native.out.pMoves.map fun m => m.srcAllocation) ∧
        (info.moves.map fun mv => mv.dst_tmp_allocation.internal)
          = (native.out.pMoves.map fun m => m.dstTmpAllocation)) ∧
    (native.result ≠ VK_SUCCESS → native.result ≠ VK_INCOMPLETE →
      Allocator.begin_defragmentation_pass native
        = some (.error ⟨native.result⟩)) := by
  have htake : native.out.pMoves.take native.out.moveCount
      = native.out.pMoves := by
    rw [hlen]
    exact List.take_length _
  refine ⟨?_, ?_, ?_⟩
  · intro h
    unfold Allocator.begin_defragmentation_pass
    simp [ffi_to_result, EruptResult.SUCCESS, EruptResult.INCOMPLETE, h,
      VK_SUCCESS, VK_INCOMPLETE]
  · intro h
    obtain ⟨ms, hms, hopm, hsrc, hdst⟩ := convMoves_of_ok native.out.pMoves hops
    refine ⟨{ internal := native.out, moves := ms }, ?_, rfl, ?_, hsrc, hdst⟩
    · unfold Allocator.begin_defragmentation_pass readPassMoves
      simp [ffi_to_result, EruptResult.INCOMPLETE, h, VK_INCOMPLETE, htake, hms]
    · have hlen2 : ms.length = native.out.pMoves.length := by
        simpa using congrArg List.length hsrc
      rw [hlen]
      exact hlen2
  · intro h1 h2
    have h1' : native.result ≠ (0 : Int) := h1
    have h2' : native.result ≠ (5 : Int) := h2
    unfold Allocator.begin_defragmentation_pass
    simp [ffi_to_result, EruptResult.SUCCESS, EruptResult.INCOMPLETE,
      VK_SUCCESS, VK_INCOMPLETE, h1', h2', Error.vulkan]

/-- Witness for claim C3: a concrete `INCOMPLETE` pass with one move, whose
returned move pairs native source 11 with destination 22. -/
theorem claim_C3_witness :
    ∃ info, Allocator.begin_defragmentation_pass
        { result := 5, out := { moveCount := 1, pMoves := [⟨0, 11, 22⟩] } }
        = some (.ok (.Incomplete info)) ∧
      info.internal = { moveCount := 1, pMoves := [⟨0, 11, 22⟩] } ∧
      info.moves.length = 1 ∧
      (info.moves.map fun mv => mv.src_allocation.internal) = [11] ∧
      (info.moves.map fun mv => mv.dst_tmp_allocation.internal) = [22] :=
  (claim_C3_begin_pass
    { result := 5, out := { moveCount := 1, pMoves := [⟨0, 11, 22⟩] } }
    (by decide) (by decide)).2.1 (by decide)

/-- Counterexample to claim C2 as stated: the source's
`impl Default for DefragmentationMoveOperation` returns `Ignore`
(src/lib.rs lines 871-875), not `Copy`. -/
theorem claim_C2_counterexample :
    DefragmentationMoveOperation.default ≠ DefragmentationMoveOperation.Copy := by
  decide

/-- Claim C2 (amended): the default value of `DefragmentationMoveOperation`
is `Ignore`; every move returned to the caller by
`begin_defragmentation_pass` initially carries the operation reported by the
native layer (which sets `Copy` by default), mutable by the caller only
between pass-begin and pass-end. -/
theorem claim_C2_amended (native : NativeResp VmaDefragmentationPassMoveInfo)
    (hlen : native.out.moveCount = native.out.pMoves.length)
    (hops : ∀ m ∈ native.out.pMoves,
      (DefragmentationMoveOperation.tryFrom m.operation).isOk = true)
    (hinc : native.result = VK_INCOMPLETE) :
    DefragmentationMoveOperation.default = DefragmentationMoveOperation.Ignore ∧
    ∃ info, Allocator.begin_defragmentation_pass native
        = some (.ok (.Incomplete info)) ∧
      (info.moves.map fun mv => mv.operation.toRaw)
        = (native.out.pMoves.map fun m => m.operation) := by
  have htake : native.out.pMoves.take native.out.moveCount
      = native.out.pMoves := by
    rw [hlen]
    exact List.take_length _
  obtain ⟨ms, hms, hopm, hsrc, hdst⟩ := convMoves_of_ok native.out.pMoves hops
  refine ⟨rfl, { internal := native.out, moves := ms }, ?_, hopm⟩
  unfold Allocator.begin_defragmentation_pass readPassMoves
  simp [ffi_to_result, EruptResult.INCOMPLETE, hinc, VK_INCOMPLETE, htake, hms]

/-- Witness for the amended claim C2: a pass whose single native move
carries the native default operation `Copy` (raw value 0), reproduced on
the returned wrapper-side move. -/
theorem claim_C2_witness :
    DefragmentationMoveOperation.default = DefragmentationMoveOperation.Ignore ∧
    ∃ info, Allocator.begin_defragmentation_pass
        { result := 5, out := { moveCount := 1, pMoves := [⟨0, 11, 22⟩] } }
        = some (.ok (.Incomplete info)) ∧
      (info.moves.map fun mv => mv.operation.toRaw) = [0] :=
  claim_C2_amended
    { result := 5, out := { moveCount := 1, pMoves := [⟨0, 11, 22⟩] } }
    (by decide) (by decide) (by decide)

/-- Claim C9: the `TryFrom` conversion succeeds exactly on the three known
operation values, and `begin_defragmentation_pass` panics (modelled as
`none`) exactly when the native layer reports `INCOMPLETE` and one of the
`moveCount` reported moves carries an operation value outside the three. -/
theorem claim_C9_panic_condition :
    (∀ v : Nat, (DefragmentationMoveOperation.tryFrom v).isOk = true ↔
      v = VMA_DEFRAGMENTATION_MOVE_OPERATION_COPY ∨
      v = VMA_DEFRAGMENTATION_MOVE_OPERATION_IGNORE ∨
      v = VMA_DEFRAGMENTATION_MOVE_OPERATION_DESTROY) ∧
    (∀ native : NativeResp VmaDefragmentationPassMoveInfo,
      Allocator.begin_defragmentation_pass native = none ↔
        native.result = VK_INCOMPLETE ∧
        ∃ m ∈ native.out.pMoves.take native.out.moveCount,
          (DefragmentationMoveOperation.tryFrom m.operation).isOk = false) := by
  refine ⟨tryFrom_isOk_iff, fun native => ?_⟩
  have hnone : readPassMoves native.out.pMoves native.out.moveCount = none ↔
      ∃ m ∈ native.out.pMoves.take native.out.moveCount,
        (DefragmentationMoveOperation.tryFrom m.operation).isOk = false := by
    unfold readPassMoves
    rw [convMoves_eq_none_iff]
    simp [convMove_eq_none_iff]
  by_cases hinc : native.result = VK_INCOMPLETE
  · cases hcm : readPassMoves native.out.pMoves native.out.moveCount with
    | some ms =>
        rw [hcm] at hnone
        unfold Allocator.begin_defragmentation_pass
        simp [ffi_to_result, EruptResult.INCOMPLETE, hinc, VK_INCOMPLETE, hcm,
          hinc, ← hnone]
    | none =>
        rw [hcm] at hnone
        unfold Allocator.begin_defragmentation_pass
        simp [ffi_to_result, EruptResult.INCOMPLETE, hinc, VK_INCOMPLETE, hcm,
          ← hnone]
  · unfold Allocator.begin_defragmentation_pass
    have hinc' : native.result ≠ (5 : Int) := hinc
    by_cases hs : native.result = VK_SUCCESS
    · simp [ffi_to_result, EruptResult.SUCCESS, EruptResult.INCOMPLETE,
        VK_SUCCESS, VK_INCOMPLETE, hs, hinc']
    · have hs' : native.result ≠ (0 : Int) := hs
      simp [ffi_to_result, EruptResult.SUCCESS, EruptResult.INCOMPLETE,
        VK_SUCCESS, VK_INCOMPLETE, hs', hinc']

theorem writeOps_map_operation (ms : List DefragmentationMove) :
    ∀ ps : List VmaDefragmentationMove, ms.length = ps.length →
      ((writeOps ps ms).map fun p => p.operation)
        = (ms.map fun mv => mv.operation.toRaw) := by
  induction ms with
  | nil =>
      intro ps h
      have hps : ps = [] := List.length_eq_zero.mp h.symm
      subst hps
      rfl
  | cons m tail ih =>
      intro ps h
      cases ps with
      | nil => simp at h
      | cons p ps =>
          simp only [writeOps, List.map_cons]
          refine congrArg₂ _ rfl ?_
          exact ih ps (by simpa using h)

/-- Counterexample to claim C4 as stated: with the native layer reporting
`INCOMPLETE` (more candidate moves may exist, another pass is worth
attempting), `end_defragmentation_pass` returns `Ok(false)` — the boolean is
`result == SUCCESS`, i.e. the negation of what the claim says. -/
theorem claim_C4_counterexample :
    Allocator.end_defragmentation_pass
        { internal := { moveCount := 0, pMoves := [] }, moves := [] }
        (fun ps => (VK_INCOMPLETE, ps))
      = .ok (false, { internal := { moveCount := 0, pMoves := [] }, moves := [] })
    ∧ (VK_INCOMPLETE : VkResult) ≠ VK_SUCCESS := by
  constructor
  · rfl
  · decide

/-- Claim C4 (amended): after writing each move's caller-set operation back
to the native move array, `end_defragmentation_pass` commits and returns a
boolean that is true iff the native layer reports `SUCCESS` (no further
moves are possible); it returns false iff another pass is worth attempting
(native `INCOMPLETE`), and any other native result is an error carrying the
code. -/
theorem claim_C4_amended (moves : DefragmentationPassMoveInfo)
    (native : List VmaDefragmentationMove →
      VkResult × List VmaDefragmentationMove)
    (r : VkResult) (after : List VmaDefragmentationMove)
    (hcall : native (writeOps moves.internal.pMoves moves.moves) = (r, after)) :
    (moves.moves.length = moves.internal.pMoves.length →
      ((writeOps moves.internal.pMoves moves.moves).map fun p => p.operation)
        = (moves.moves.map fun mv => mv.operation.toRaw)) ∧
    (r = VK_SUCCESS →
      Allocator.end_defragmentation_pass moves native
        = .ok (true, { internal := { moves.internal with pMoves := after }
                       moves := readBackSrc moves.moves after })) ∧
    (r = VK_INCOMPLETE →
      Allocator.end_defragmentation_pass moves native
        = .ok (false, { internal := { moves.internal with pMoves := after }
                        moves := readBackSrc moves.moves after })) ∧
    (r ≠ VK_SUCCESS → r ≠ VK_INCOMPLETE →
      Allocator.end_defragmentation_pass moves native = .error ⟨r⟩) := by
  refine ⟨fun h => writeOps_map_operation moves.moves moves.internal.pMoves h,
    ?_, ?_, ?_⟩
  · intro h
    unfold Allocator.end_defragmentation_pass
    simp [hcall, ffi_to_result, EruptResult.SUCCESS, EruptResult.INCOMPLETE, h,
      VK_SUCCESS, VK_INCOMPLETE]
  · intro h
    unfold Allocator.end_defragmentation_pass
    simp [hcall, ffi_to_result, EruptResult.SUCCESS, EruptResult.INCOMPLETE, h,
      VK_SUCCESS, VK_INCOMPLETE]
  · intro h1 h2
    have h1' : r ≠ (0 : Int) := h1
    have h2' : r ≠ (5 : Int) := h2
    unfold Allocator.end_defragmentation_pass
    simp [hcall, ffi_to_result, EruptResult.SUCCESS, EruptResult.INCOMPLETE,
      h1', h2', VK_SUCCESS, VK_INCOMPLETE, Error.vulkan]

/-- Witness for the amended claim C4: a concrete pass whose native commit
reports `SUCCESS`, so the returned boolean is true (defragmentation done). -/
theorem claim_C4_witness :
    Allocator.end_defragmentation_pass
        { internal := { moveCount := 0, pMoves := [] }, moves := [] }
        (fun ps => (VK_SUCCESS, ps))
      = .ok (true, { internal := { moveCount := 0, pMoves := [] }, moves := [] }) :=
  (claim_C4_amended
    { internal := { moveCount := 0, pMoves := [] }, moves := [] }
    (fun ps => (VK_SUCCESS, ps)) VK_SUCCESS [] rfl).2.1 rfl

/-- Claim C5: `end_defragmentation` returns statistics whose four fields
equal the values reported by the native layer. -/
theorem claim_C5_end_stats (native : VmaDefragmentationStats)
    (hm : native.bytesMoved < 2 ^ 64) (hf : native.bytesFreed < 2 ^ 64) :
    (Allocator.end_defragmentation native).bytes_moved = native.bytesMoved ∧
    (Allocator.end_defragmentation native).bytes_freed = native.bytesFreed ∧
    (Allocator.end_defragmentation native).allocations_moved
      = native.allocationsMoved ∧
    (Allocator.end_defragmentation native).device_memory_blocks_freed
      = native.deviceMemoryBlocksFreed := by
  refine ⟨?_, ?_, rfl, rfl⟩
  · exact Nat.mod_eq_of_lt hm
  · exact Nat.mod_eq_of_lt hf

/-- Witness for claim C5 at a concrete native statistics record. -/
theorem claim_C5_witness :
    (Allocator.end_defragmentation ⟨1024, 4096, 3, 1⟩).bytes_moved = 1024 ∧
    (Allocator.end_defragmentation ⟨1024, 4096, 3, 1⟩).bytes_freed = 4096 ∧
    (Allocator.end_defragmentation ⟨1024, 4096, 3, 1⟩).allocations_moved = 3 ∧
    (Allocator.end_defragmentation ⟨1024, 4096, 3, 1⟩).device_memory_blocks_freed
      = 1 :=
  claim_C5_end_stats ⟨1024, 4096, 3, 1⟩ (by norm_num) (by norm_num)

/-- Claim C6: for a target pool created with the `LINEAR_ALGORITHM` flag,
`begin_defragmentation` fails with an InvalidArgument-class error rather
than opening a defragmentation context. -/
theorem claim_C6_linear_pool_rejected (poolFlags : Nat)
    (fallback : NativeResp Ptr)
    (hlin : poolFlags &&& VMA_POOL_CREATE_LINEAR_ALGORITHM_BIT ≠ 0) :
    Allocator.begin_defragmentation
        (nativeBeginDefragmentation poolFlags fallback)
      = .error ⟨VK_ERROR_INVALID_ARGUMENT_CLASS⟩ := by
  unfold nativeBeginDefragmentation
  rw [if_pos hlin]
  unfold Allocator.begin_defragmentation
  simp [ffi_to_result, EruptResult.SUCCESS, Error.vulkan,
    VK_ERROR_INVALID_ARGUMENT_CLASS, VK_SUCCESS]

/-- Witness for claim C6: a pool whose flags are exactly the linear-algorithm
bit. -/
theorem claim_C6_witness :
    Allocator.begin_defragmentation
        (nativeBeginDefragmentation VMA_POOL_CREATE_LINEAR_ALGORITHM_BIT
          { result := VK_SUCCESS, out := 12 })
      = .error ⟨VK_ERROR_INVALID_ARGUMENT_CLASS⟩ :=
  claim_C6_linear_pool_rejected VMA_POOL_CREATE_LINEAR_ALGORITHM_BIT
    { result := VK_SUCCESS, out := 12 } (by decide)

/-- Claim C7: `check_corruption` (and `check_pool_corruption`) returns
`Ok(())` exactly when the native check succeeds, an error carrying
`FEATURE_NOT_PRESENT` when corruption detection is unavailable for the
scope, an error carrying `VALIDATION_FAILED_EXT` when a stomped guard
region is found, and in general passes any failure code through unchanged;
the bitmask (resp. pool handle) given to the native layer is exactly the
caller-supplied one. -/
theorem claim_C7_corruption_checks (bits : Nat) (pool : AllocatorPool)
    (native : Nat → VkResult) (poolNative : Ptr → VkResult) :
    (Allocator.check_corruption bits native = .ok ()
      ↔ native bits = VK_SUCCESS) ∧
    (native bits = VK_ERROR_FEATURE_NOT_PRESENT →
      Allocator.check_corruption bits native
        = .error ⟨VK_ERROR_FEATURE_NOT_PRESENT⟩) ∧
    (native bits = VK_ERROR_VALIDATION_FAILED_EXT →
      Allocator.check_corruption bits native
        = .error ⟨VK_ERROR_VALIDATION_FAILED_EXT⟩) ∧
    (native bits ≠ VK_SUCCESS →
      Allocator.check_corruption bits native = .error ⟨native bits⟩) ∧
    (Allocator.check_pool_corruption pool poolNative = .ok ()
      ↔ poolNative pool.internal = VK_SUCCESS) ∧
    (poolNative pool.internal ≠ VK_SUCCESS →
      Allocator.check_pool_corruption pool poolNative
        = .error ⟨poolNative pool.internal⟩) := by
  have hmain := ffi_match_spec (native bits) ()
  have hpool := ffi_match_spec (poolNative pool.internal) ()
  refine ⟨hmain.1, ?_, ?_, hmain.2, hpool.1, hpool.2⟩
  · intro h
    have hne : native bits ≠ VK_SUCCESS := by rw [h]; decide
    have h2 : Allocator.check_corruption bits native = .error ⟨native bits⟩ :=
      hmain.2 hne
    rw [h] at h2
    exact h2
  · intro h
    have hne : native bits ≠ VK_SUCCESS := by rw [h]; decide
    have h2 : Allocator.check_corruption bits native = .error ⟨native bits⟩ :=
      hmain.2 hne
    rw [h] at h2
    exact h2

/-- Witness for claim C7: a scope where corruption detection is not
available (`FEATURE_NOT_PRESENT`) and a pool whose check succeeds. -/
theorem claim_C7_witness :
    Allocator.check_corruption 5 (fun _ => VK_ERROR_FEATURE_NOT_PRESENT)
      = .error ⟨VK_ERROR_FEATURE_NOT_PRESENT⟩ ∧
    Allocator.check_pool_corruption ⟨7⟩ (fun _ => VK_SUCCESS) = .ok () :=
  ⟨(claim_C7_corruption_checks 5 ⟨7⟩ (fun _ => VK_ERROR_FEATURE_NOT_PRESENT)
      (fun _ => VK_SUCCESS)).2.1 rfl,
    (claim_C7_corruption_checks 5 ⟨7⟩ (fun _ => VK_ERROR_FEATURE_NOT_PRESENT)
      (fun _ => VK_SUCCESS)).2.2.2.2.1.mpr rfl⟩

/-- Claim C8: for a host-visible allocation, mapping increments the owning
native memory object's map reference count, performing the actual native
map and caching the pointer only on the first increment and returning the
cached, correctly offset pointer afterwards; unmapping decrements and
triggers the native unmap only at zero.  In particular, mapping twice and
unmapping once leaves the object mapped with ref count 1, and a second
unmap unmaps it (ref count 0). -/
theorem claim_C8_map_refcount (basePtr : Ptr) (offset : Nat)
    (s : BlockMapState) :
    ((modelMapMemory true basePtr offset s).1.map_ref_count
      = s.map_ref_count + 1) ∧
    ((modelMapMemory true basePtr offset s).2.1 = true
      ↔ s.map_ref_count = 0) ∧
    (s.map_ref_count ≠ 0 →
      (modelMapMemory true basePtr offset s).2.2
          = .ok (s.mapped_pointer + offset) ∧
      (modelMapMemory true basePtr offset s).1.mapped_pointer
        = s.mapped_pointer) ∧
    ((modelUnmapMemory s).1.map_ref_count = s.map_ref_count - 1) ∧
    ((modelUnmapMemory s).2 = true ↔ s.map_ref_count = 1) ∧
    ((modelUnmapMemory (modelMapMemory true basePtr offset
        (modelMapMemory true basePtr offset ⟨0, 0⟩).1).1).1
      = { map_ref_count := 1, mapped_pointer := basePtr }) ∧
    ((modelUnmapMemory (modelMapMemory true basePtr offset
        (modelMapMemory true basePtr offset ⟨0, 0⟩).1).1).2 = false) ∧
    ((modelUnmapMemory (modelUnmapMemory (modelMapMemory true basePtr offset
        (modelMapMemory true basePtr offset ⟨0, 0⟩).1).1).1).1
      = { map_ref_count := 0, mapped_pointer := 0 }) ∧
    ((modelUnmapMemory (modelUnmapMemory (modelMapMemory true basePtr offset
        (modelMapMemory true basePtr offset ⟨0, 0⟩).1).1).1).2 = true) := by
  refine ⟨?_, ?_, ?_, ?_, ?_, ?_, ?_, ?_, ?_⟩
  · by_cases h : s.map_ref_count = 0 <;> simp [modelMapMemory, h]
  · by_cases h : s.map_ref_count = 0 <;> simp [modelMapMemory, h]
  · intro h
    simp [modelMapMemory, h]
  · by_cases h : s.map_ref_count = 1 <;> simp [modelUnmapMemory, h]
  · by_cases h : s.map_ref_count = 1 <;> simp [modelUnmapMemory, h]
  · simp [modelMapMemory, modelUnmapMemory]
  · simp [modelMapMemory, modelUnmapMemory]
  · simp [modelMapMemory, modelUnmapMemory]
  · simp [modelMapMemory, modelUnmapMemory]

/-- Witness for claim C8: mapping an already-mapped block (ref count 2,
cached base 50) at offset 4 returns the cached offset pointer 54 without a
native map. -/
theorem claim_C8_witness :
    (modelMapMemory true 100 4 ⟨2, 50⟩).2.2 = .ok 54 ∧
    (modelMapMemory true 100 4 ⟨2, 50⟩).1.mapped_pointer = 50 :=
  (claim_C8_map_refcount 100 4 ⟨2, 50⟩).2.2.1 (by decide)

/-- Claim C10: `Allocator::destroy` is idempotent — after one call the
internal handle is null, every subsequent `destroy` (including the one
`Drop` performs) makes no native destroy call, and destroying then dropping
releases the native allocator exactly once. -/
theorem claim_C10_destroy_idempotent (a : Allocator) :
    ((Allocator.destroy a).1.internal = 0) ∧
    (Allocator.destroy (Allocator.destroy a).1
      = ((Allocator.destroy a).1, false)) ∧
    (Allocator.drop (Allocator.destroy a).1
      = ((Allocator.destroy a).1, false)) ∧
    ((Allocator.destroy a).2 = true ↔ a.internal ≠ 0) ∧
    (a.internal ≠ 0 →
      (cond (Allocator.destroy a).2 1 0)
        + (cond (Allocator.drop (Allocator.destroy a).1).2 1 0) = 1) := by
  by_cases h : a.internal = 0
  · refine ⟨?_, ?_, ?_, ?_, ?_⟩ <;>
      simp [Allocator.destroy, Allocator.drop, h]
  · refine ⟨?_, ?_, ?_, ?_, ?_⟩ <;>
      simp [Allocator.destroy, Allocator.drop, h]

/-- Witness for claim C10: a live allocator (handle 3) is released exactly
once across an explicit `destroy` followed by `Drop`. -/
theorem claim_C10_witness :
    (cond (Allocator.destroy ⟨3⟩).2 1 0)
      + (cond (Allocator.drop (Allocator.destroy ⟨3⟩).1).2 1 0) = 1 :=
  (claim_C10_destroy_idempotent ⟨3⟩).2.2.2.2 (by decide)

end VkMem
